import Mathlib

/-!
Verification of the DRPTM-WEB resilient data-acquisition and storage-fallback
core against its natural-language specification.

The development shallowly embeds the TypeScript sources:
  * `ExternalDatabaseService.decodeHexData` and
    `ExternalDatabaseService.fetchLatestReading` (external fetcher),
  * the `DatabaseStorage` orchestrator of `server/db.ts`
    (`fetchFromExternalDatabase`, `getSensorReadings`,
    `getSensorReadingsByTimeRange`, `createSensorReading`,
    `getSystemStatus`, `updateSystemStatus`, `getAlertSettings`,
    `updateAlertSettings`).

JavaScript machine numbers that the claims quantify over are modelled as
exact rationals; `parseInt(s, 16)` is modelled as an `Option Int`
(`none` standing for `NaN`); JavaScript exceptions are modelled with
`Except`, and the mutable fields of the `DatabaseStorage` class together
with the backing SQL tables are modelled as an explicit state record that
every method threads.  Fault injection (a query throwing, the network
call failing) is modelled by explicit per-call environment records, one
flag per `await` site of the source.
-/

namespace DRPTM

/-! ### JavaScript value helpers -/

/-- A JavaScript field value as produced by the decoder: absent
(`undefined`), `NaN`, or an actual number (modelled exactly as a
rational). -/
inductive JsVal where
  | undef
  | nan
  | num (q : ℚ)
  deriving Repr, DecidableEq

/-- JavaScript `v || k` for a numeric field `v`: `undefined`, `NaN` and
`0` are falsy, any other number is returned unchanged. -/
def jsOrNum (v : JsVal) (k : ℚ) : ℚ :=
  match v with
  | .num q => if q = 0 then k else q
  | _ => k

/-- JavaScript `a || b` for an optional string field: `undefined` and the
empty string are falsy. -/
def jsOrStr (a : Option String) (b : String) : String :=
  match a with
  | some s => if s.isEmpty then b else s
  | none => b

/-! ### Hex decoder (`ExternalDatabaseService.decodeHexData`) -/

/-- Value of a single hexadecimal digit, `none` for a non-digit. -/
def hexDigit? (c : Char) : Option Nat :=
  if '0' ≤ c ∧ c ≤ '9' then some (c.toNat - '0'.toNat)
  else if 'a' ≤ c ∧ c ≤ 'f' then some (c.toNat - 'a'.toNat + 10)
  else if 'A' ≤ c ∧ c ≤ 'F' then some (c.toNat - 'A'.toNat + 10)
  else none

/-- Accumulate the value of the longest hex-digit run at the front of the
list, as `parseInt` does once digits have started. -/
def parseHexCore : List Char → Nat → Nat
  | [], acc => acc
  | c :: cs, acc =>
    match hexDigit? c with
    | some d => parseHexCore cs (16 * acc + d)
    | none => acc

/-- The digit part of `parseInt(·, 16)`: strip an optional `0x`/`0X`
prefix, then require at least one hex digit (`none` is `NaN`). -/
def parseHexBody (cs : List Char) : Option Nat :=
  let cs' := match cs with
    | c0 :: c1 :: rest => if c0 = '0' ∧ (c1 = 'x' ∨ c1 = 'X') then rest else cs
    | _ => cs
  match cs' with
  | [] => none
  | c :: _ =>
    if (hexDigit? c).isSome then some (parseHexCore cs' 0) else none

/-- JavaScript `parseInt(s, 16)`: skip leading whitespace, accept an
optional sign, then parse the longest hex-digit run; `none` is `NaN`.
`parseInt` never throws — malformed input yields `NaN`, not an error. -/
def parseHexInt (s : String) : Option Int :=
  let cs := s.data.dropWhile (fun c => c = ' ' ∨ c = '\t' ∨ c = '\n' ∨ c = '\r')
  match cs with
  | [] => none
  | c :: rest =>
    if c = '-' then (parseHexBody rest).map (fun n => -(n : Int))
    else if c = '+' then (parseHexBody rest).map (fun n => (n : Int))
    else (parseHexBody (c :: rest)).map (fun n => (n : Int))

/-- JavaScript `s.substr(start, len)` for non-negative arguments. -/
def substr (s : String) (start len : Nat) : String :=
  ⟨(s.data.drop start).take len⟩

/-- JavaScript `s.startsWith(pre)`. -/
def startsWith (s pre : String) : Bool :=
  decide (pre.data <+: s.data)

/-- Scale a parsed 16-bit chunk by a family-specific divisor;
`NaN / d = NaN`. -/
def scaleBy (v : Option Int) (d : ℚ) : JsVal :=
  match v with
  | none => .nan
  | some n => .num ((n : ℚ) / d)

/-- The object literal returned by `decodeHexData`; fields that a device
family does not produce stay `undefined`. -/
structure Decoded where
  ph : JsVal := .undef
  moisture : JsVal := .undef
  ec : JsVal := .undef
  temperature : JsVal := .undef
  humidity : JsVal := .undef
  light : JsVal := .undef
  tdsLevel : JsVal := .undef
  deriving Repr, DecidableEq

/-- Model of `ExternalDatabaseService.decodeHexData(hexString, deviceCode)`.
The source wraps the body in `try`/`catch`, but `substr` and `parseInt`
never throw, so the catch branch is unreachable; totality of this
function is the model of "never throws". -/
def decodeHexData (hexString deviceCode : String) : Option Decoded :=
  if startsWith deviceCode "CZ" then
    -- Cabai (4 sensors)
    some { ph := scaleBy (parseHexInt (substr hexString 0 4)) 100,
           moisture := scaleBy (parseHexInt (substr hexString 4 4)) 10,
           ec := scaleBy (parseHexInt (substr hexString 8 4)) 100,
           temperature := scaleBy (parseHexInt (substr hexString 12 4)) 10 }
  else if startsWith deviceCode "MZ" ∨ startsWith deviceCode "SZ" then
    -- Melon/Selada (3 sensors)
    some { ph := scaleBy (parseHexInt (substr hexString 0 4)) 100,
           ec := scaleBy (parseHexInt (substr hexString 4 4)) 100,
           temperature := scaleBy (parseHexInt (substr hexString 8 4)) 10 }
  else if startsWith deviceCode "GZ" then
    -- Greenhouse (3 sensors)
    some { temperature := scaleBy (parseHexInt (substr hexString 0 4)) 10,
           humidity := scaleBy (parseHexInt (substr hexString 4 4)) 10,
           light := scaleBy (parseHexInt (substr hexString 8 4)) 1 }
  else if startsWith deviceCode "HZ" then
    -- Hydroponic (3 sensors - pH, TDS/EC, Temperature)
    some { ph := scaleBy (parseHexInt (substr hexString 0 4)) 100,
           tdsLevel := scaleBy (parseHexInt (substr hexString 4 4)) 10,
           temperature := scaleBy (parseHexInt (substr hexString 8 4)) 10 }
  else
    none

/-- Numeric value of an all-hex-digit string (big-endian). -/
def hexStrVal (s : String) : Nat :=
  parseHexCore s.data 0

/-- Every character of `s` is a hexadecimal digit. -/
def AllHex (s : String) : Prop :=
  ∀ c ∈ s.data, (hexDigit? c).isSome

instance (s : String) : Decidable (AllHex s) := by
  unfold AllHex; infer_instance

/-! ### External fetcher (`ExternalDatabaseService.fetchLatestReading`) -/

/-- The canonical reading shape produced by the fetcher
(`ExternalDatabaseReading`). -/
structure ExtReading where
  eid : String := ""
  temperature : ℚ
  ph : ℚ
  tdsLevel : ℚ
  timestampStr : String := ""
  deriving Repr, DecidableEq

/-- The fields of the upstream JSON envelope that the fetcher inspects
(`device_code`, `reading.encoded_data`, the id candidates and the
timestamp candidates).  Absent fields are `none`. -/
structure Envelope where
  device_code : Option String := none
  encoded_data : Option String := none
  id_field : Option String := none
  underscore_id : Option String := none
  reading_id : Option String := none
  reading_timestamp : Option String := none
  top_timestamp : Option String := none
  created_at : Option String := none
  time_field : Option String := none
  deriving Repr, DecidableEq

/-- The observable part of an HTTP response: `ok`, the `content-type`
header, whether `response.json()` parses, and the parsed envelope. -/
structure HttpResponse where
  ok : Bool := true
  contentType : Option String := none
  jsonOk : Bool := true
  body : Envelope := {}
  deriving Repr, DecidableEq

/-- Outcome of the outbound `fetch` call: either the call itself threw
(timeout via `AbortController`, DNS failure, connection refused, ...) or
a response arrived. -/
inductive FetchOutcome where
  | netError (msg : String)
  | response (r : HttpResponse)
  deriving Repr, DecidableEq

/-- JavaScript `ct.includes("application/json")`. -/
def containsJson (ct : String) : Bool :=
  decide ("application/json".data <:+: ct.data)

/-- The body of `fetchLatestReading` inside its outer `try`:
`Except.error` models a thrown exception (non-OK status, bad
content-type, unparsable JSON), `Except.ok none` the logged-and-null
early returns, `Except.ok (some r)` the adapted reading.  `nowIso` and
`nowMs` stand for the fetch instant. -/
def fetchBody (o : FetchOutcome) (nowIso : String) (nowMs : Int) :
    Except String (Option ExtReading) :=
  match o with
  | .netError m => .error m
  | .response r =>
    if ¬ r.ok then
      .error "External database API error"
    else
      match r.contentType with
      | none => .error "Expected JSON response but got null"
      | some ct =>
        if ¬ containsJson ct then
          .error "Expected JSON response"
        else if ¬ r.jsonOk then
          .error "invalid json body"
        else
          let deviceCode := jsOrStr r.body.device_code "UNKNOWN"
          match r.body.encoded_data with
          | none => .ok none
          | some e =>
            if e.isEmpty then .ok none
            else
              match decodeHexData e deviceCode with
              | none => .ok none
              | some d =>
                .ok (some
                  { eid := jsOrStr r.body.id_field
                      (jsOrStr r.body.underscore_id
                        (jsOrStr r.body.reading_id ("ext_" ++ toString nowMs))),
                    temperature := jsOrNum d.temperature 0,
                    ph := jsOrNum d.ph 0,
                    tdsLevel := jsOrNum d.tdsLevel (jsOrNum d.ec 0),
                    timestampStr := jsOrStr r.body.reading_timestamp
                      (jsOrStr r.body.top_timestamp
                        (jsOrStr r.body.created_at
                          (jsOrStr r.body.time_field nowIso))) })

/-- Model of `ExternalDatabaseService.fetchLatestReading`: the outer `try`/`catch`
converts every thrown exception into a `null` return, so the function is
total into `Option ExtReading`. -/
def fetchLatestReading (o : FetchOutcome) (nowIso : String) (nowMs : Int) :
    Option ExtReading :=
  match fetchBody o nowIso nowMs with
  | .ok v => v
  | .error _ => none

/-! ### Orchestrator data model (`server/db.ts`, `DatabaseStorage`) -/

/-- A row of the `sensor_readings` table (also used for in-memory
fallback readings); times are epoch milliseconds. -/
structure SensorReading where
  rid : String
  timestamp : Int
  temperature : ℚ
  ph : ℚ
  tdsLevel : ℚ
  createdAt : Int := 0
  deriving Repr, DecidableEq

/-- The `connection_status` enum of the `system_status` table. -/
inductive ConnStatus where
  | connected
  | disconnected
  | error
  deriving Repr, DecidableEq

/-- A row of the `system_status` table. -/
structure SystemStatusRow where
  sid : String
  connectionStatus : ConnStatus
  lastUpdate : Int
  dataPoints : Int
  cpuUsage : ℚ
  memoryUsage : ℚ
  storageUsage : ℚ
  uptime : String
  deriving Repr, DecidableEq

/-- A row of the `alert_settings` table. -/
structure AlertRow where
  aid : String
  temperatureAlerts : Bool
  phAlerts : Bool
  tdsLevelAlerts : Bool
  deriving Repr, DecidableEq

/-- The relational store behind the persistence gateway. -/
structure DbState where
  readings : List SensorReading := []
  status : List SystemStatusRow := []
  alerts : List AlertRow := []
  deriving Repr, DecidableEq

/-- The mutable state of a `DatabaseStorage` instance together with the
process-wide configuration it reads: `dbConn` is
`getDatabaseConnection().available` (the gateway's connection-level
availability), `isDev` is `NODE_ENV === 'development'`, and `db` is the
backing store. -/
structure StorageState where
  lastExternalFetchTime : Int := 0
  databaseAvailable : Bool := true
  fallbackReadings : List SensorReading := []
  fallbackStatus : SystemStatusRow :=
    { sid := "fallback", connectionStatus := .connected, lastUpdate := 0,
      dataPoints := 0, cpuUsage := 23, memoryUsage := 30, storageUsage := 26,
      uptime := "3d 14h 22m" }
  fallbackAlerts : AlertRow :=
    { aid := "fallback", temperatureAlerts := true, phAlerts := true,
      tdsLevelAlerts := false }
  dbConn : Bool := true
  isDev : Bool := false
  db : DbState := {}
  deriving Repr, DecidableEq

/-- The `this.cacheTimeout` constant — 10 seconds in milliseconds. -/
def cacheTimeout : Int := 10000

/-! ### Orchestrator operations

Each method takes the current `StorageState` plus an environment record
holding one fault-injection flag per `await`ed persistence operation of
the source (`true` means that query threw) together with the values the
outside world supplies during the call (`Date.now()`, database-generated
ids and `defaultNow()` timestamps, the external fetch result). -/

/-- A `Partial<SystemStatus>` argument to `updateSystemStatus`. -/
structure StatusPatch where
  connectionStatus : Option ConnStatus := none
  dataPoints : Option Int := none
  cpuUsage : Option ℚ := none
  memoryUsage : Option ℚ := none
  storageUsage : Option ℚ := none
  uptime : Option String := none
  deriving Repr, DecidableEq

/-- JavaScript `Object.assign` of the patch plus a fresh `lastUpdate` /
`.set({ ...patch, lastUpdate: now })`. -/
def applyPatch (st : SystemStatusRow) (p : StatusPatch) (now : Int) :
    SystemStatusRow :=
  { st with
    connectionStatus := p.connectionStatus.getD st.connectionStatus,
    dataPoints := p.dataPoints.getD st.dataPoints,
    cpuUsage := p.cpuUsage.getD st.cpuUsage,
    memoryUsage := p.memoryUsage.getD st.memoryUsage,
    storageUsage := p.storageUsage.getD st.storageUsage,
    uptime := p.uptime.getD st.uptime,
    lastUpdate := now }

/-- Environment of one `updateSystemStatus` call: does the singleton-row
select throw, does the subsequent insert/update throw, plus the call
instant and the id a fresh insert would get. -/
structure UpdEnv where
  selectFails : Bool := false
  writeFails : Bool := false
  now : Int := 0
  newId : String := "status-row"
  deriving Repr, DecidableEq

/-- Model of `DatabaseStorage.updateSystemStatus(statusUpdate)`.  Note that every
failure is caught internally (flag flipped, fallback object patched), so
this method never throws to its caller. -/
def updateSystemStatus (s : StorageState) (p : StatusPatch) (env : UpdEnv) :
    SystemStatusRow × StorageState :=
  if ¬ s.dbConn then
    let fb := applyPatch s.fallbackStatus p env.now
    (fb, { s with fallbackStatus := fb })
  else if env.selectFails then
    let fb := applyPatch s.fallbackStatus p env.now
    (fb, { s with databaseAvailable := false, fallbackStatus := fb })
  else
    match s.db.status.head? with
    | none =>
      if env.writeFails then
        let fb := applyPatch s.fallbackStatus p env.now
        (fb, { s with databaseAvailable := false, fallbackStatus := fb })
      else
        -- insert defaults overridden by the patch; `last_update` defaults to now
        let defaults : SystemStatusRow :=
          { sid := env.newId, connectionStatus := .connected,
            lastUpdate := env.now, dataPoints := 0, cpuUsage := 23,
            memoryUsage := 30, storageUsage := 26, uptime := "3d 14h 22m" }
        let newStatus :=
          { defaults with
            connectionStatus := p.connectionStatus.getD defaults.connectionStatus,
            dataPoints := p.dataPoints.getD defaults.dataPoints,
            cpuUsage := p.cpuUsage.getD defaults.cpuUsage,
            memoryUsage := p.memoryUsage.getD defaults.memoryUsage,
            storageUsage := p.storageUsage.getD defaults.storageUsage,
            uptime := p.uptime.getD defaults.uptime }
        (newStatus, { s with db := { s.db with status := [newStatus] } })
    | some cur =>
      if env.writeFails then
        let fb := applyPatch s.fallbackStatus p env.now
        (fb, { s with databaseAvailable := false, fallbackStatus := fb })
      else
        let upd := applyPatch cur p env.now
        (upd, { s with db := { s.db with status := upd :: s.db.status.tail } })

/-- Model of `DatabaseStorage.getSystemStatus()`: returns the singleton row (or a
default if the table is empty), restores the availability flag on
success, degrades to the fallback status object on failure. -/
def getSystemStatus (s : StorageState) (selectFails : Bool) (now : Int) :
    SystemStatusRow × StorageState :=
  if ¬ s.dbConn then
    (s.fallbackStatus, s)
  else if selectFails then
    (s.fallbackStatus, { s with databaseAvailable := false })
  else
    let s' := { s with databaseAvailable := true }
    match s.db.status.head? with
    | none =>
      ({ sid := "default", connectionStatus := .connected, lastUpdate := now,
         dataPoints := 0, cpuUsage := 23, memoryUsage := 30,
         storageUsage := 26, uptime := "3d 14h 22m" }, s')
    | some st => (st, s')

/-- Model of `DatabaseStorage.getAlertSettings()`. -/
def getAlertSettings (s : StorageState) (selectFails : Bool) :
    AlertRow × StorageState :=
  if ¬ s.dbConn then
    (s.fallbackAlerts, s)
  else if selectFails then
    (s.fallbackAlerts, { s with databaseAvailable := false })
  else
    let s' := { s with databaseAvailable := true }
    match s.db.alerts.head? with
    | none =>
      ({ aid := "default", temperatureAlerts := true, phAlerts := true,
         tdsLevelAlerts := false }, s')
    | some st => (st, s')

/-- Model of `DatabaseStorage.updateAlertSettings(newSettings)`. -/
def updateAlertSettings (s : StorageState) (new : AlertRow) (env : UpdEnv) :
    AlertRow × StorageState :=
  if ¬ s.dbConn then
    -- Object.assign copies every field of newSettings, id included
    (new, { s with fallbackAlerts := new })
  else if env.selectFails then
    (new, { s with databaseAvailable := false, fallbackAlerts := new })
  else
    match s.db.alerts.head? with
    | none =>
      if env.writeFails then
        (new, { s with databaseAvailable := false, fallbackAlerts := new })
      else
        let created : AlertRow :=
          { aid := env.newId, temperatureAlerts := new.temperatureAlerts,
            phAlerts := new.phAlerts, tdsLevelAlerts := new.tdsLevelAlerts }
        (created, { s with db := { s.db with alerts := [created] } })
    | some cur =>
      if env.writeFails then
        (new, { s with databaseAvailable := false, fallbackAlerts := new })
      else
        let upd : AlertRow :=
          { cur with
            temperatureAlerts := new.temperatureAlerts,
            phAlerts := new.phAlerts,
            tdsLevelAlerts := new.tdsLevelAlerts }
        (upd, { s with db := { s.db with alerts := upd :: s.db.alerts.tail } })

/-- The validated insert payload (`InsertSensorReading`). -/
structure InsertReading where
  temperature : ℚ
  ph : ℚ
  tdsLevel : ℚ
  deriving Repr, DecidableEq

/-- Environment of one `createSensorReading` call. -/
structure CreateEnv where
  now : Int := 0
  insertFails : Bool := false
  countFails : Bool := false
  newId : String := "row"
  insTimestamp : Int := 0
  updEnv : UpdEnv := {}
  deriving Repr, DecidableEq

/-- The in-memory reading synthesized on the degraded write path
(`memory_${Date.now()}`). -/
def memoryReading (ins : InsertReading) (now : Int) : SensorReading :=
  { rid := "memory_" ++ toString now, timestamp := now,
    temperature := ins.temperature, ph := ins.ph, tdsLevel := ins.tdsLevel,
    createdAt := now }

/-- Model of `DatabaseStorage.createSensorReading(insertReading)`.  Success path:
insert, then recount `dataPoints` with a COUNT query and push it through
`updateSystemStatus`.  Either query throwing flips the availability flag
and prepends an in-memory reading instead; the success path never
touches the flag. -/
def createSensorReading (s : StorageState) (ins : InsertReading)
    (env : CreateEnv) : SensorReading × StorageState :=
  if ¬ s.dbConn then
    let r := memoryReading ins env.now
    (r, { s with fallbackReadings := r :: s.fallbackReadings })
  else if env.insertFails then
    let r := memoryReading ins env.now
    (r, { s with databaseAvailable := false,
                 fallbackReadings := r :: s.fallbackReadings })
  else
    let r : SensorReading :=
      { rid := env.newId, timestamp := env.insTimestamp,
        temperature := ins.temperature, ph := ins.ph,
        tdsLevel := ins.tdsLevel, createdAt := env.insTimestamp }
    let s1 := { s with db := { s.db with readings := s.db.readings ++ [r] } }
    if env.countFails then
      -- the COUNT query threw after the insert landed: caught, flag
      -- flipped, an in-memory copy prepended and returned
      let m := memoryReading ins env.now
      (m, { s1 with databaseAvailable := false,
                    fallbackReadings := m :: s1.fallbackReadings })
    else
      let cnt : Int := s1.db.readings.length
      let s2 := (updateSystemStatus s1 { dataPoints := some cnt } env.updEnv).2
      (r, s2)

/-! ### Ordered queries (the SQL `orderBy` clauses) -/

/-- Ascending-timestamp order. -/
def tsLE (a b : SensorReading) : Prop := a.timestamp ≤ b.timestamp

/-- Descending-timestamp order. -/
def tsGE (a b : SensorReading) : Prop := b.timestamp ≤ a.timestamp

instance : DecidableRel tsLE := fun a b => by unfold tsLE; infer_instance
instance : DecidableRel tsGE := fun a b => by unfold tsGE; infer_instance
instance : IsTotal SensorReading tsLE := ⟨fun _ _ => Int.le_total _ _⟩
instance : IsTrans SensorReading tsLE := ⟨fun _ _ _ => Int.le_trans⟩
instance : IsTotal SensorReading tsGE := ⟨fun _ _ => Int.le_total _ _⟩
instance : IsTrans SensorReading tsGE := ⟨fun _ _ _ h h' => Int.le_trans h' h⟩

/-- Model of `orderBy(sensorReadings.timestamp)` — ascending. -/
def sortByTsAsc (l : List SensorReading) : List SensorReading :=
  l.insertionSort tsLE

/-- Model of `orderBy(desc(sensorReadings.timestamp))` — descending. -/
def sortByTsDesc (l : List SensorReading) : List SensorReading :=
  l.insertionSort tsGE

/-- Model of `select().orderBy(desc(timestamp)).limit(1)` — the latest stored
reading, if any. -/
def latestStored (l : List SensorReading) : Option SensorReading :=
  (sortByTsDesc l).head?

/-! ### `fetchFromExternalDatabase` -/

/-- Environment of one `fetchFromExternalDatabase` call. -/
structure FetchEnv where
  now : Int := 0
  /-- the cached `select ... limit 1` throws -/
  cacheReadFails : Bool := false
  /-- result of `externalDatabaseService.fetchLatestReading()` (`none`
  covers both a `null` return and a thrown error, which the outer catch
  also converts into a `null` return without touching any state) -/
  external : Option ExtReading := none
  insertFails : Bool := false
  countFails : Bool := false
  newId : String := "row"
  insTimestamp : Int := 0
  updEnv : UpdEnv := {}
  deriving Repr, DecidableEq

/-- Result of `fetchFromExternalDatabase`, instrumented with whether the
control flow reached the call to the external service. -/
structure FetchResult where
  reading : Option SensorReading
  state : StorageState
  externalAttempted : Bool
  deriving Repr, DecidableEq

/-- The reading returned without storing when the gateway is unavailable
or the insert failed (`external_${now}`). -/
def externalShaped (ext : ExtReading) (now : Int) : SensorReading :=
  { rid := "external_" ++ toString now, timestamp := now,
    temperature := ext.temperature, ph := ext.ph, tdsLevel := ext.tdsLevel,
    createdAt := now }

/-- The part of `fetchFromExternalDatabase` from the external call
onward: fetch, advance `lastExternalFetchTime` on a non-null result,
then insert + recount if the gateway is available. -/
def fetchExternalPhase (s : StorageState) (env : FetchEnv) : FetchResult :=
  match env.external with
  | none => { reading := none, state := s, externalAttempted := true }
  | some ext =>
    let s1 := { s with lastExternalFetchTime := env.now }
    if s1.dbConn then
      if env.insertFails then
        { reading := some (externalShaped ext env.now),
          state := { s1 with databaseAvailable := false },
          externalAttempted := true }
      else
        let r : SensorReading :=
          { rid := env.newId, timestamp := env.insTimestamp,
            temperature := ext.temperature, ph := ext.ph,
            tdsLevel := ext.tdsLevel, createdAt := env.insTimestamp }
        let s2 := { s1 with
                    db := { s1.db with readings := s1.db.readings ++ [r] },
                    databaseAvailable := true }
        if env.countFails then
          -- COUNT threw after the insert: caught, flag flipped, and the
          -- unstored-shaped reading returned by the code after the catch
          { reading := some (externalShaped ext env.now),
            state := { s2 with databaseAvailable := false },
            externalAttempted := true }
        else
          let cnt : Int := s2.db.readings.length
          let s3 := (updateSystemStatus s2 { dataPoints := some cnt } env.updEnv).2
          { reading := some r, state := s3, externalAttempted := true }
    else
      { reading := some (externalShaped ext env.now), state := s1,
        externalAttempted := true }

/-- Model of `DatabaseStorage.fetchFromExternalDatabase()`: if the gateway is
available and the freshness window has not elapsed, first try to serve
the latest stored row (a throwing cache read flips the flag and falls
through); otherwise, and on a cache miss, run the external phase. -/
def fetchFromExternalDatabase (s : StorageState) (env : FetchEnv) :
    FetchResult :=
  if s.dbConn ∧ env.now - s.lastExternalFetchTime < cacheTimeout then
    if env.cacheReadFails then
      fetchExternalPhase { s with databaseAvailable := false } env
    else
      match latestStored s.db.readings with
      | some r => { reading := some r, state := s, externalAttempted := false }
      | none => fetchExternalPhase s env
  else
    fetchExternalPhase s env

/-! ### `getSensorReadings` and `getSensorReadingsByTimeRange` -/

/-- The synthesized sample reading {25.5, 6.8, 450} with a given id
prefix and instant. -/
def sampleReadingAt (pre : String) (now : Int) : SensorReading :=
  { rid := pre ++ toString now, timestamp := now, temperature := 25.5,
    ph := 6.8, tdsLevel := 450, createdAt := now }

/-- Seed the fallback list with one `sample_${Date.now()}` reading if it
is empty. -/
def ensureFallbackSample (s : StorageState) (now : Int) : StorageState :=
  if s.fallbackReadings.isEmpty then
    { s with fallbackReadings := [sampleReadingAt "sample_" now] }
  else s

/-- Environment of one `getSensorReadings` attempt. -/
structure GetEnv where
  fetch : FetchEnv := {}
  /-- the main `select ... orderBy desc limit` throws -/
  readFails : Bool := false
  now : Int := 0
  /-- the development-mode seed insert throws -/
  devInsertFails : Bool := false
  newId : String := "seed"
  insTimestamp : Int := 0
  deriving Repr, DecidableEq

/-- Model of `DatabaseStorage.getSensorReadings(limit)`.  The source retries
itself from its own catch handler (`return this.getSensorReadings(limit)`),
so the model consumes one environment per attempt; an exhausted
environment list ends the recursion (the claims below only concern runs
that finish within the supplied attempts). -/
def getSensorReadings (limit : Nat) :
    StorageState → List GetEnv → List SensorReading × StorageState
  | s, [] => ([], s)
  | s, env :: rest =>
    let fr := fetchFromExternalDatabase s env.fetch
    let s1 := fr.state
    if ¬ s1.databaseAvailable then
      let s2 := ensureFallbackSample s1 env.now
      (s2.fallbackReadings.take limit, s2)
    else if ¬ s1.dbConn then
      let s2 := ensureFallbackSample { s1 with databaseAvailable := false } env.now
      (s2.fallbackReadings.take limit, s2)
    else if env.readFails then
      getSensorReadings limit { s1 with databaseAvailable := false } rest
    else
      let s2 := { s1 with databaseAvailable := true }
      let readings := (sortByTsDesc s2.db.readings).take limit
      if readings.isEmpty then
        if s2.isDev then
          if env.devInsertFails then
            getSensorReadings limit { s2 with databaseAvailable := false } rest
          else
            let seed : SensorReading :=
              { rid := env.newId, timestamp := env.insTimestamp,
                temperature := 25.5, ph := 6.8, tdsLevel := 450,
                createdAt := env.insTimestamp }
            ([seed],
             { s2 with db := { s2.db with readings := s2.db.readings ++ [seed] } })
        else
          let fallback := sampleReadingAt "fallback_" env.now
          ([fallback], { s2 with fallbackReadings := [fallback] })
      else
        (readings, s2)

/-- Environment of one `getSensorReadingsByTimeRange` call. -/
structure RangeEnv where
  fetch : FetchEnv := {}
  queryFails : Bool := false
  deriving Repr, DecidableEq

/-- Model of `DatabaseStorage.getSensorReadingsByTimeRange(startTime, endTime)`:
freshness-triggered fetch, then a `gte`/`lte`-bounded query ordered by
ascending timestamp, degrading to the fallback list on failure. -/
def getSensorReadingsByTimeRange (s : StorageState) (startTime endTime : Int)
    (env : RangeEnv) : List SensorReading × StorageState :=
  let fr := fetchFromExternalDatabase s env.fetch
  let s1 := fr.state
  if ¬ s1.dbConn then
    (s1.fallbackReadings, s1)
  else if env.queryFails then
    (s1.fallbackReadings, { s1 with databaseAvailable := false })
  else
    (sortByTsAsc (s1.db.readings.filter
        (fun r => startTime ≤ r.timestamp ∧ r.timestamp ≤ endTime)),
     s1)

/-- Value of the 4-character chunk at offset `off`, exactly as the code's
`parseInt(hexString.substr(off, 4), 16)` produces it on well-formed
input. -/
def chunkVal (hex : String) (off : Nat) : ℚ :=
  ((hexStrVal (substr hex off 4) : Int) : ℚ)

/-! ### Concrete fixtures for the witnesses and counterexamples -/

/-- A stored reading. -/
def reading0 : SensorReading :=
  { rid := "a", timestamp := 5, temperature := 24, ph := 7, tdsLevel := 900 }

/-- A populated status singleton. -/
def statusRow1 : SystemStatusRow :=
  { sid := "st0", connectionStatus := .connected, lastUpdate := 0,
    dataPoints := 1, cpuUsage := 23, memoryUsage := 30, storageUsage := 26,
    uptime := "3d 14h 22m" }

/-- A reading delivered by the external service. -/
def ext0 : ExtReading := { temperature := 24, ph := 7, tdsLevel := 900 }

/-- A validated manual insert. -/
def ins0 : InsertReading := { temperature := 25, ph := 7, tdsLevel := 500 }

/-- A live state whose store holds one reading and the status row. -/
def st5 : StorageState :=
  { dbConn := true, db := { readings := [reading0], status := [statusRow1] } }

/-- A fault-free `createSensorReading` environment. -/
def cenv0 : CreateEnv :=
  { now := 1000, newId := "r2", insTimestamp := 1000, updEnv := { now := 1000 } }

/-- A fault-free fetch environment with the window elapsed. -/
def fenv0 : FetchEnv :=
  { now := 100000, external := some ext0, newId := "r3",
    insTimestamp := 100000, updEnv := { now := 100000 } }

/-- The live-store state `st5`, degraded (availability flag down). -/
def st5deg : StorageState := { st5 with databaseAvailable := false }

/-- A `createSensorReading` environment whose insert throws. -/
def cenvFail : CreateEnv := { now := 1000, insertFails := true }

/-- A live, empty store in a development-like configuration. -/
def stEmptyDev : StorageState := { dbConn := true, isDev := true }

/-- A live, empty store in a production-like configuration. -/
def stEmptyProd : StorageState := { dbConn := true, isDev := false }

/-- A fault-free `getSensorReadings` environment whose fetch finds no
external data. -/
def genv0 : GetEnv :=
  { fetch := { now := 50000 }, now := 50000, newId := "seed1",
    insTimestamp := 50000 }

/-- A store with three readings at timestamps 5, 2 and 9. -/
def st9 : StorageState :=
  { dbConn := true,
    db := { readings :=
      [{ rid := "a", timestamp := 5, temperature := 1, ph := 1, tdsLevel := 1 },
       { rid := "b", timestamp := 2, temperature := 2, ph := 2, tdsLevel := 2 },
       { rid := "c", timestamp := 9, temperature := 3, ph := 3,
         tdsLevel := 3 }] } }

/-! ## Helper lemmas -/

theorem hexDigit?_lt {c : Char} {d : Nat} (h : hexDigit? c = some d) : d < 16 := by
  unfold hexDigit? at h
  split at h
  · rename_i hc
    injection h with h
    have h9 : c.toNat ≤ 57 := by simpa [Char.le_def] using hc.2
    have e0 : '0'.toNat = 48 := rfl
    omega
  · split at h
    · rename_i hc
      injection h with h
      have hf : c.toNat ≤ 102 := by simpa [Char.le_def] using hc.2
      have ha : 97 ≤ c.toNat := by simpa [Char.le_def] using hc.1
      have ea : 'a'.toNat = 97 := rfl
      omega
    · split at h
      · rename_i hc
        injection h with h
        have hF : c.toNat ≤ 70 := by simpa [Char.le_def] using hc.2
        have hA : 65 ≤ c.toNat := by simpa [Char.le_def] using hc.1
        have eA : 'A'.toNat = 65 := rfl
        omega
      · exact absurd h (by simp)

theorem hexDigit?_not_special {c : Char} (h : (hexDigit? c).isSome) :
    c ≠ ' ' ∧ c ≠ '\t' ∧ c ≠ '\n' ∧ c ≠ '\r' ∧ c ≠ '-' ∧ c ≠ '+' ∧
      c ≠ 'x' ∧ c ≠ 'X' := by
  unfold hexDigit? at h
  split at h
  · rename_i hc
    refine ⟨?_, ?_, ?_, ?_, ?_, ?_, ?_, ?_⟩ <;> rintro rfl <;> revert hc <;> decide
  · split at h
    · rename_i hc
      refine ⟨?_, ?_, ?_, ?_, ?_, ?_, ?_, ?_⟩ <;> rintro rfl <;> revert hc <;> decide
    · split at h
      · rename_i hc
        refine ⟨?_, ?_, ?_, ?_, ?_, ?_, ?_, ?_⟩ <;> rintro rfl <;> revert hc <;> decide
      · simp at h

theorem parseHexCore_lt :
    ∀ (cs : List Char), (∀ c ∈ cs, (hexDigit? c).isSome) →
      ∀ acc, parseHexCore cs acc < 16 ^ cs.length * (acc + 1)
  | [], _, acc => by simp [parseHexCore]
  | c :: cs, h, acc => by
    have hc : (hexDigit? c).isSome := h c (List.mem_cons_self ..)
    obtain ⟨d, hd⟩ := Option.isSome_iff_exists.mp hc
    have hd16 : d < 16 := hexDigit?_lt hd
    have ih := parseHexCore_lt cs (fun x hx => h x (List.mem_cons_of_mem _ hx))
      (16 * acc + d)
    simp only [parseHexCore, hd]
    calc parseHexCore cs (16 * acc + d)
        < 16 ^ cs.length * (16 * acc + d + 1) := ih
      _ ≤ 16 ^ cs.length * (16 * (acc + 1)) := by
          exact Nat.mul_le_mul_left _ (by omega)
      _ = 16 ^ (c :: cs).length * (acc + 1) := by
          simp [List.length_cons, pow_succ]
          ring

theorem parseHexBody_allHex (cs : List Char) (hne : cs ≠ [])
    (h : ∀ c ∈ cs, (hexDigit? c).isSome) :
    parseHexBody cs = some (parseHexCore cs 0) := by
  match cs, hne with
  | [c], _ =>
    have hc := h c (List.mem_cons_self ..)
    simp only [parseHexBody, hc, if_true]
  | c0 :: c1 :: rest, _ =>
    have hc0 := h c0 (List.mem_cons_self ..)
    have hc1 := h c1 (List.mem_cons_of_mem _ (List.mem_cons_self ..))
    have hx := hexDigit?_not_special hc1
    have hcond : ¬ (c0 = '0' ∧ (c1 = 'x' ∨ c1 = 'X')) := by
      rintro ⟨-, hor⟩
      rcases hor with h' | h'
      · exact hx.2.2.2.2.2.2.1 h'
      · exact hx.2.2.2.2.2.2.2 h'
    simp only [parseHexBody, if_neg hcond, hc0, if_true]

theorem parseHexInt_allHex (s : String) (hne : s.data ≠ []) (h : AllHex s) :
    parseHexInt s = some ((hexStrVal s : Nat) : Int) := by
  match hd : s.data, hne with
  | c :: rest, _ =>
    have hc : (hexDigit? c).isSome := h c (by rw [hd]; exact List.mem_cons_self ..)
    have hall : ∀ x ∈ c :: rest, (hexDigit? x).isSome := by
      intro x hx
      exact h x (by rw [hd]; exact hx)
    have hsp := hexDigit?_not_special hc
    have hws : (decide (c = ' ' ∨ c = '\t' ∨ c = '\n' ∨ c = '\r')) = false := by
      simp only [decide_eq_false_iff_not]
      rintro (h' | h' | h' | h')
      · exact hsp.1 h'
      · exact hsp.2.1 h'
      · exact hsp.2.2.1 h'
      · exact hsp.2.2.2.1 h'
    have hbody := parseHexBody_allHex (c :: rest) (by simp) hall
    unfold parseHexInt hexStrVal
    rw [hd]
    simp only [List.dropWhile_cons, hws, Bool.false_eq_true, if_false,
      if_neg hsp.2.2.2.2.1, if_neg hsp.2.2.2.2.2.1, hbody, Option.map_some]
    rfl

theorem startsWith_true_iff {s pre : String} :
    startsWith s pre = true ↔ pre.data <+: s.data := by
  simp [startsWith]

theorem startsWith_HZ_shape {dc : String} (h : startsWith dc "HZ" = true) :
    ∃ t, dc.data = 'H' :: 'Z' :: t := by
  obtain ⟨t, ht⟩ := startsWith_true_iff.mp h
  have e : "HZ".data = ['H', 'Z'] := rfl
  rw [e] at ht
  exact ⟨t, ht.symm⟩

theorem startsWith_false_of_ne_head {dc : String} {a : Char} {t : List Char}
    (hdc : dc.data = a :: t) {pre : String} {p : Char} {pt : List Char}
    (hpre : pre.data = p :: pt) (hne : p ≠ a) :
    startsWith dc pre = false := by
  rw [← Bool.not_eq_true]
  intro hcon
  obtain ⟨u, hu⟩ := startsWith_true_iff.mp hcon
  rw [hpre, hdc] at hu
  injection hu with h1 _
  exact hne h1

theorem substr_chunk_facts (hex : String) (off : Nat) (hhex : AllHex hex)
    (hoff : off + 4 ≤ hex.length) :
    parseHexInt (substr hex off 4) =
        some ((hexStrVal (substr hex off 4) : Nat) : Int) ∧
      hexStrVal (substr hex off 4) < 65536 := by
  have hdata : (substr hex off 4).data = (hex.data.drop off).take 4 := rfl
  have hsub : ∀ c ∈ (substr hex off 4).data, (hexDigit? c).isSome := by
    intro c hc
    rw [hdata] at hc
    exact hhex c (List.drop_subset _ _ (List.take_subset _ _ hc))
  have hlen4 : (substr hex off 4).data.length = 4 := by
    rw [hdata, List.length_take, List.length_drop]
    have he : hex.data.length = hex.length := rfl
    omega
  have hne : (substr hex off 4).data ≠ [] := by
    intro h0
    rw [h0] at hlen4
    simp at hlen4
  refine ⟨parseHexInt_allHex _ hne hsub, ?_⟩
  have hb := parseHexCore_lt (substr hex off 4).data hsub 0
  rw [hlen4] at hb
  unfold hexStrVal
  norm_num at hb
  exact hb

/-! ## Claim C6 -/

/-- C6 (confirmed): for every all-hex payload of length at least 12
and every device code with prefix `HZ`, `decodeHexData` yields exactly
the three fields `ph`, `tdsLevel`, `temperature`, computed from the
4-character chunks at offsets 0/4/8, each parsed as a 16-bit unsigned
integer (the chunk values are below 2^16) and scaled by 100, 10 and 10
respectively. -/
theorem c6_hz_decode (hex dc : String) (hpre : startsWith dc "HZ" = true)
    (hhex : AllHex hex) (hlen : 12 ≤ hex.length) :
    decodeHexData hex dc =
      some { ph := .num (chunkVal hex 0 / 100),
             tdsLevel := .num (chunkVal hex 4 / 10),
             temperature := .num (chunkVal hex 8 / 10) } ∧
      hexStrVal (substr hex 0 4) < 65536 ∧
      hexStrVal (substr hex 4 4) < 65536 ∧
      hexStrVal (substr hex 8 4) < 65536 := by
  obtain ⟨t, hdc⟩ := startsWith_HZ_shape hpre
  have hCZ : startsWith dc "CZ" = false :=
    startsWith_false_of_ne_head hdc (rfl : "CZ".data = 'C' :: ['Z']) (by decide)
  have hMZ : startsWith dc "MZ" = false :=
    startsWith_false_of_ne_head hdc (rfl : "MZ".data = 'M' :: ['Z']) (by decide)
  have hSZ : startsWith dc "SZ" = false :=
    startsWith_false_of_ne_head hdc (rfl : "SZ".data = 'S' :: ['Z']) (by decide)
  have hGZ : startsWith dc "GZ" = false :=
    startsWith_false_of_ne_head hdc (rfl : "GZ".data = 'G' :: ['Z']) (by decide)
  have h0 := substr_chunk_facts hex 0 hhex (by omega)
  have h4 := substr_chunk_facts hex 4 hhex (by omega)
  have h8 := substr_chunk_facts hex 8 hhex (by omega)
  refine ⟨?_, h0.2, h4.2, h8.2⟩
  unfold decodeHexData
  simp only [hCZ, hMZ, hSZ, hGZ, hpre, Bool.false_eq_true, if_false, if_true,
    or_self, h0.1, h4.1, h8.1]
  simp [scaleBy, chunkVal]

/-- Witness for C6 at the spec's own example: device `HZ1`, payload
`02BC07D000F0` (so ph = 0x02BC/100 = 7, tdsLevel = 0x07D0/10 = 200,
temperature = 0x00F0/10 = 24). -/
theorem c6_hz_decode_witness :
    startsWith "HZ1" "HZ" = true ∧ AllHex "02BC07D000F0" ∧
      12 ≤ "02BC07D000F0".length ∧
      (decodeHexData "02BC07D000F0" "HZ1" =
        some { ph := .num (chunkVal "02BC07D000F0" 0 / 100),
               tdsLevel := .num (chunkVal "02BC07D000F0" 4 / 10),
               temperature := .num (chunkVal "02BC07D000F0" 8 / 10) } ∧
        hexStrVal (substr "02BC07D000F0" 0 4) < 65536 ∧
        hexStrVal (substr "02BC07D000F0" 4 4) < 65536 ∧
        hexStrVal (substr "02BC07D000F0" 8 4) < 65536) ∧
      chunkVal "02BC07D000F0" 0 = 700 ∧
      chunkVal "02BC07D000F0" 4 = 2000 ∧
      chunkVal "02BC07D000F0" 8 = 240 :=
  ⟨by decide, by decide, by decide,
   c6_hz_decode "02BC07D000F0" "HZ1" (by decide) (by decide) (by decide),
   by norm_num [chunkVal, show hexStrVal (substr "02BC07D000F0" 0 4) = 700 from by decide],
   by norm_num [chunkVal, show hexStrVal (substr "02BC07D000F0" 4 4) = 2000 from by decide],
   by norm_num [chunkVal, show hexStrVal (substr "02BC07D000F0" 8 4) = 240 from by decide]⟩

/-! ## Claim C7 -/

/-- C7 counterexample: the claim says malformed hex (here: a string
shorter than the required field width) makes `decode` return null; in
fact, with the known prefix `HZ` the code returns an object whose three
fields are `NaN` (JavaScript `parseInt` yields `NaN` instead of
throwing, and `NaN / 10` is `NaN`), not null. -/
theorem c7_counterexample :
    decodeHexData "" "HZ1" =
      some { ph := .nan, tdsLevel := .nan, temperature := .nan } ∧
    decodeHexData "" "HZ1" ≠ none := by
  constructor
  · decide
  · decide

/-- C7 (amended): `decodeHexData` is total (never throws) and
returns null exactly when the device-code prefix is unknown; for a known
prefix it always returns an object, even on malformed hex — the fields
are then `NaN`, they are not a null result. -/
theorem c7_decode_null_iff_unknown_prefix (hex dc : String) :
    decodeHexData hex dc = none ↔
      (startsWith dc "CZ" = false ∧ startsWith dc "MZ" = false ∧
       startsWith dc "SZ" = false ∧ startsWith dc "GZ" = false ∧
       startsWith dc "HZ" = false) := by
  unfold decodeHexData
  split_ifs with h1 h2 h3 h4
  · simp [h1]
  · rcases h2 with h | h <;> simp [h]
  · simp [h3]
  · simp [h4]
  · push_neg at h2
    simp only [Bool.not_eq_true] at h1 h3 h4
    obtain ⟨h2a, h2b⟩ := h2
    simp only [Bool.not_eq_true] at h2a h2b
    simp [h1, h2a, h2b, h3, h4]

/-! ## Claim C8 -/

/-- C8 (confirmed): `fetchLatestReading` never propagates an
exception to its caller.  Every exception thrown inside the body
(network error or timeout, non-OK status, non-JSON content-type,
unparsable JSON) is converted to a null return by the outer catch; the
logged early returns (missing or empty `encoded_data`, a null decode)
are null as well; and in every case the function terminates with either
null or a fully-formed reading. -/
theorem c8_fetch_absorbs_failures (o : FetchOutcome) (nowIso : String)
    (nowMs : Int) :
    (∀ e, fetchBody o nowIso nowMs = .error e →
      fetchLatestReading o nowIso nowMs = none) ∧
    (∀ m, o = .netError m → fetchLatestReading o nowIso nowMs = none) ∧
    (∀ r, o = .response r → r.ok = false →
      fetchLatestReading o nowIso nowMs = none) ∧
    (∀ r, o = .response r → r.ok = true → r.contentType = none →
      fetchLatestReading o nowIso nowMs = none) ∧
    (∀ r ct, o = .response r → r.ok = true → r.contentType = some ct →
      containsJson ct = false → fetchLatestReading o nowIso nowMs = none) ∧
    (∀ r ct, o = .response r → r.ok = true → r.contentType = some ct →
      containsJson ct = true → r.jsonOk = false →
      fetchLatestReading o nowIso nowMs = none) ∧
    (∀ r ct, o = .response r → r.ok = true → r.contentType = some ct →
      containsJson ct = true → r.jsonOk = true →
      r.body.encoded_data = none → fetchLatestReading o nowIso nowMs = none) ∧
    (∀ r ct e, o = .response r → r.ok = true → r.contentType = some ct →
      containsJson ct = true → r.jsonOk = true →
      r.body.encoded_data = some e → e ≠ "" →
      decodeHexData e (jsOrStr r.body.device_code "UNKNOWN") = none →
      fetchLatestReading o nowIso nowMs = none) ∧
    (fetchLatestReading o nowIso nowMs = none ∨
      ∃ rd, fetchLatestReading o nowIso nowMs = some rd) := by
  refine ⟨?_, ?_, ?_, ?_, ?_, ?_, ?_, ?_, ?_⟩
  · intro e he
    unfold fetchLatestReading
    rw [he]
  · intro m hm
    subst hm
    rfl
  · intro r ho hok
    subst ho
    simp [fetchLatestReading, fetchBody, hok]
  · intro r ho hok hct
    subst ho
    simp [fetchLatestReading, fetchBody, hok, hct]
  · intro r ct ho hok hct hcj
    subst ho
    simp [fetchLatestReading, fetchBody, hok, hct, hcj]
  · intro r ct ho hok hct hcj hjs
    subst ho
    simp [fetchLatestReading, fetchBody, hok, hct, hcj, hjs]
  · intro r ct ho hok hct hcj hjs henc
    subst ho
    simp [fetchLatestReading, fetchBody, hok, hct, hcj, hjs, henc]
  · intro r ct e ho hok hct hcj hjs henc hne hdec
    subst ho
    have hie : e.isEmpty = false := by
      rw [Bool.eq_false_iff]
      intro hcon
      exact hne ((String.isEmpty_iff e).mp hcon)
    simp [fetchLatestReading, fetchBody, hok, hct, hcj, hjs, henc, hie, hdec]
  · match h : fetchLatestReading o nowIso nowMs with
    | none => exact Or.inl rfl
    | some rd => exact Or.inr ⟨rd, rfl⟩

/-- Witness for C8: concrete instances of the failure classes — a timed
out call, a non-OK status, an HTML content-type, a parsable envelope
with no `encoded_data`, and an empty-payload decode for an unknown
device — all return null. -/
theorem c8_fetch_witness :
    fetchLatestReading (.netError "timeout") "2025-01-01" 0 = none ∧
    fetchLatestReading (.response { ok := false }) "2025-01-01" 0 = none ∧
    fetchLatestReading
      (.response { contentType := some "text/html" }) "2025-01-01" 0 = none ∧
    fetchLatestReading
      (.response { contentType := some "application/json" }) "2025-01-01" 0 =
      none ∧
    fetchLatestReading
      (.response { contentType := some "application/json",
                   body := { device_code := some "XX1",
                             encoded_data := some "0102" } }) "2025-01-01" 0 =
      none :=
  ⟨(c8_fetch_absorbs_failures (.netError "timeout") "2025-01-01" 0).2.1
      "timeout" rfl,
   (c8_fetch_absorbs_failures (.response { ok := false }) "2025-01-01" 0).2.2.1
      _ rfl rfl,
   (c8_fetch_absorbs_failures (.response { contentType := some "text/html" })
      "2025-01-01" 0).2.2.2.2.1 _ "text/html" rfl rfl rfl (by decide),
   (c8_fetch_absorbs_failures
      (.response { contentType := some "application/json" })
      "2025-01-01" 0).2.2.2.2.2.2.1 _ "application/json" rfl rfl rfl
      (by decide) rfl rfl,
   (c8_fetch_absorbs_failures
      (.response { contentType := some "application/json",
                   body := { device_code := some "XX1",
                             encoded_data := some "0102" } })
      "2025-01-01" 0).2.2.2.2.2.2.2.1 _ "application/json" "0102" rfl rfl rfl
      (by decide) rfl rfl (by decide) (by decide)⟩

/-! ## Orchestrator helper lemmas -/

theorem updateSystemStatus_preserves (s : StorageState) (p : StatusPatch)
    (env : UpdEnv) :
    (updateSystemStatus s p env).2.lastExternalFetchTime =
        s.lastExternalFetchTime ∧
      (updateSystemStatus s p env).2.dbConn = s.dbConn ∧
      (updateSystemStatus s p env).2.fallbackReadings = s.fallbackReadings ∧
      (updateSystemStatus s p env).2.db.readings = s.db.readings ∧
      (updateSystemStatus s p env).2.isDev = s.isDev ∧
      (env.selectFails = false → env.writeFails = false →
        (updateSystemStatus s p env).2.databaseAvailable =
          s.databaseAvailable) := by
  unfold updateSystemStatus
  split
  · exact ⟨rfl, rfl, rfl, rfl, rfl, fun _ _ => rfl⟩
  · split
    · rename_i hsel
      exact ⟨rfl, rfl, rfl, rfl, rfl, fun h _ => by rw [h] at hsel; exact absurd hsel (by simp)⟩
    · split
      · split
        · rename_i hwr
          exact ⟨rfl, rfl, rfl, rfl, rfl, fun _ h => by rw [h] at hwr; exact absurd hwr (by simp)⟩
        · exact ⟨rfl, rfl, rfl, rfl, rfl, fun _ _ => rfl⟩
      · split
        · rename_i hwr
          exact ⟨rfl, rfl, rfl, rfl, rfl, fun _ h => by rw [h] at hwr; exact absurd hwr (by simp)⟩
        · exact ⟨rfl, rfl, rfl, rfl, rfl, fun _ _ => rfl⟩

theorem updateSystemStatus_sets_dataPoints (s : StorageState) (n : Int)
    (env : UpdEnv) (hconn : s.dbConn = true) (hsel : env.selectFails = false)
    (hwr : env.writeFails = false) :
    ∃ row, (updateSystemStatus s { dataPoints := some n } env).2.db.status.head? =
        some row ∧ row.dataPoints = n := by
  unfold updateSystemStatus
  simp only [hconn, hsel, hwr, not_true, Bool.false_eq_true, if_false]
  cases hst : s.db.status.head? with
  | none => exact ⟨_, rfl, rfl⟩
  | some cur => exact ⟨_, rfl, rfl⟩

theorem fetch_elapsed_eq (s : StorageState) (env : FetchEnv)
    (h : cacheTimeout ≤ env.now - s.lastExternalFetchTime) :
    fetchFromExternalDatabase s env = fetchExternalPhase s env := by
  unfold fetchFromExternalDatabase
  rw [if_neg]
  rintro ⟨-, h2⟩
  omega

theorem fetchExternalPhase_attempted (s : StorageState) (env : FetchEnv) :
    (fetchExternalPhase s env).externalAttempted = true := by
  cases hx : env.external with
  | none => simp [fetchExternalPhase, hx]
  | some ext =>
    simp only [fetchExternalPhase, hx]
    split_ifs <;> rfl

theorem fetchExternalPhase_lastTime (s : StorageState) (env : FetchEnv) :
    (fetchExternalPhase s env).state.lastExternalFetchTime =
      if env.external.isSome then env.now else s.lastExternalFetchTime := by
  cases hx : env.external with
  | none => simp [fetchExternalPhase, hx]
  | some ext =>
    simp only [fetchExternalPhase, hx, Option.isSome_some, if_true]
    split_ifs <;>
      simp [(updateSystemStatus_preserves _ _ _).1]

/-! ## Claim C3 -/

/-- C3 counterexample: with the gateway unavailable and the
freshness window not yet elapsed (5000 ms since the last fetch, 10000 ms
window) — i.e. with both of the claim's required conditions false — the
read path still reaches the call to the external service. -/
theorem c3_counterexample :
    (fetchFromExternalDatabase
        { lastExternalFetchTime := 0, dbConn := false }
        { now := 5000,
          external := some { temperature := 24, ph := 7, tdsLevel := 900 } }
      ).externalAttempted = true ∧
    (({ lastExternalFetchTime := 0, dbConn := false } : StorageState).dbConn
        = false) ∧
    (5000 : Int) - 0 < cacheTimeout := by
  refine ⟨by decide, rfl, by decide⟩

/-- C3 (amended): during a read, the external fetch is skipped
exactly when the gateway is available AND the freshness window has not
elapsed AND the cached store read succeeds AND the store holds at least
one reading.  In every other situation — in particular whenever the
gateway is unavailable or the window has elapsed — the external call is
attempted. -/
theorem c3_amended_external_attempt_iff (s : StorageState) (env : FetchEnv) :
    (fetchFromExternalDatabase s env).externalAttempted = false ↔
      (s.dbConn = true ∧
       env.now - s.lastExternalFetchTime < cacheTimeout ∧
       env.cacheReadFails = false ∧
       (latestStored s.db.readings).isSome = true) := by
  constructor
  · intro h
    unfold fetchFromExternalDatabase at h
    split at h
    · rename_i hcond
      split at h
      · rw [fetchExternalPhase_attempted] at h
        exact absurd h (by simp)
      · rename_i hcf
        split at h
        · rename_i r hr
          exact ⟨hcond.1, hcond.2, by simpa using hcf, by simp [hr]⟩
        · rw [fetchExternalPhase_attempted] at h
          exact absurd h (by simp)
    · rw [fetchExternalPhase_attempted] at h
      exact absurd h (by simp)
  · rintro ⟨h1, h2, h3, h4⟩
    obtain ⟨r, hr⟩ := Option.isSome_iff_exists.mp h4
    unfold fetchFromExternalDatabase
    rw [if_pos ⟨h1, h2⟩, if_neg (by simp [h3]), hr]

theorem fetch_cases (s : StorageState) (env : FetchEnv) :
    fetchFromExternalDatabase s env = fetchExternalPhase s env ∨
    (env.cacheReadFails = true ∧
      fetchFromExternalDatabase s env =
        fetchExternalPhase { s with databaseAvailable := false } env) ∨
    ∃ r, latestStored s.db.readings = some r ∧
      fetchFromExternalDatabase s env =
        { reading := some r, state := s, externalAttempted := false } := by
  unfold fetchFromExternalDatabase
  split
  · split
    · rename_i hcf
      exact Or.inr (Or.inl ⟨hcf, rfl⟩)
    · cases hr : latestStored s.db.readings with
      | some r => exact Or.inr (Or.inr ⟨r, rfl, rfl⟩)
      | none => exact Or.inl rfl
  · exact Or.inl rfl

theorem fetch_noExternal_state (s : StorageState) (env : FetchEnv)
    (hx : env.external = none) :
    (fetchFromExternalDatabase s env).state = s ∨
    (fetchFromExternalDatabase s env).state =
      { s with databaseAvailable := false } := by
  rcases fetch_cases s env with h | ⟨-, h⟩ | ⟨r, -, h⟩
  · rw [h]
    exact Or.inl (by simp [fetchExternalPhase, hx])
  · rw [h]
    exact Or.inr (by simp [fetchExternalPhase, hx])
  · rw [h]
    exact Or.inl rfl

theorem fetchExternalPhase_dbConn (s : StorageState) (env : FetchEnv) :
    (fetchExternalPhase s env).state.dbConn = s.dbConn := by
  cases hx : env.external with
  | none => simp [fetchExternalPhase, hx]
  | some ext =>
    simp only [fetchExternalPhase, hx]
    split_ifs <;> simp [(updateSystemStatus_preserves _ _ _).2.1]

theorem fetch_preserves_dbConn (s : StorageState) (env : FetchEnv) :
    (fetchFromExternalDatabase s env).state.dbConn = s.dbConn := by
  rcases fetch_cases s env with h | ⟨-, h⟩ | ⟨r, -, h⟩
  · rw [h, fetchExternalPhase_dbConn]
  · rw [h, fetchExternalPhase_dbConn]
  · rw [h]

theorem fetch_neutral (s : StorageState) (env : FetchEnv)
    (hx : env.external = none) (hcf : env.cacheReadFails = false) :
    (fetchFromExternalDatabase s env).state = s := by
  rcases fetch_cases s env with h | ⟨hc, h⟩ | ⟨r, -, h⟩
  · rw [h]
    simp [fetchExternalPhase, hx]
  · rw [hcf] at hc
    exact absurd hc (by simp)
  · rw [h]

/-! ## Claim C10 -/

/-- C10 counterexample: a successful fetch at t = 100000 (which
stores a row and sets the window), then a failed fetch at t = 105000
(cache read throws, external service returns null — the window is indeed
not advanced), and then a read at t = 107000.  Contrary to the claim,
that very next read does NOT attempt another external call: the prior
success still lies within the 10-second window and the cached store read
returns the stored row. -/
theorem c10_counterexample :
    (fetchFromExternalDatabase
        (fetchFromExternalDatabase { dbConn := true }
          { now := 100000,
            external := some { temperature := 24, ph := 7, tdsLevel := 900 },
            newId := "r1", insTimestamp := 100000,
            updEnv := { now := 100000, newId := "st1" } }).state
        { now := 105000, cacheReadFails := true }).externalAttempted = true ∧
    (fetchFromExternalDatabase
        (fetchFromExternalDatabase { dbConn := true }
          { now := 100000,
            external := some { temperature := 24, ph := 7, tdsLevel := 900 },
            newId := "r1", insTimestamp := 100000,
            updEnv := { now := 100000, newId := "st1" } }).state
        { now := 105000, cacheReadFails := true }).reading = none ∧
    (fetchFromExternalDatabase
        (fetchFromExternalDatabase { dbConn := true }
          { now := 100000,
            external := some { temperature := 24, ph := 7, tdsLevel := 900 },
            newId := "r1", insTimestamp := 100000,
            updEnv := { now := 100000, newId := "st1" } }).state
        { now := 105000, cacheReadFails := true }).state.lastExternalFetchTime
      = 100000 ∧
    (fetchFromExternalDatabase
        (fetchFromExternalDatabase
          (fetchFromExternalDatabase { dbConn := true }
            { now := 100000,
              external := some { temperature := 24, ph := 7, tdsLevel := 900 },
              newId := "r1", insTimestamp := 100000,
              updEnv := { now := 100000, newId := "st1" } }).state
          { now := 105000, cacheReadFails := true }).state
        { now := 107000,
          external := some { temperature := 25, ph := 7, tdsLevel := 901 } }
      ).externalAttempted = false := by
  refine ⟨by decide, by decide, by decide, by decide⟩

/-- C10 (amended): `lastExternalFetchTime` is advanced (to the call
instant) exactly when the external fetch returns a non-null reading, and
is left untouched by a failed fetch or a cache hit; consequently a
failed fetch starts no new cooldown: whenever no successful fetch lies
within the previous 10 seconds, the next read attempts an external call.
(The next read can still skip the external call when an earlier
*successful* fetch is fresher than 10 seconds and the cached store read
returns a row — that is the situation of the counterexample.) -/
theorem c10_amended_window (s : StorageState) (env : FetchEnv) :
    ((fetchFromExternalDatabase s env).externalAttempted = true →
      (fetchFromExternalDatabase s env).state.lastExternalFetchTime =
        if env.external.isSome then env.now else s.lastExternalFetchTime) ∧
    ((fetchFromExternalDatabase s env).externalAttempted = false →
      (fetchFromExternalDatabase s env).state.lastExternalFetchTime =
        s.lastExternalFetchTime) ∧
    (cacheTimeout ≤ env.now - s.lastExternalFetchTime →
      (fetchFromExternalDatabase s env).externalAttempted = true) := by
  refine ⟨?_, ?_, ?_⟩
  · intro ha
    rcases fetch_cases s env with h | ⟨-, h⟩ | ⟨r, hr, h⟩
    · rw [h]
      exact fetchExternalPhase_lastTime s env
    · rw [h]
      exact fetchExternalPhase_lastTime { s with databaseAvailable := false } env
    · rw [h] at ha
      exact absurd ha (by simp)
  · intro ha
    rcases fetch_cases s env with h | ⟨-, h⟩ | ⟨r, hr, h⟩
    · rw [h, fetchExternalPhase_attempted] at ha
      exact absurd ha (by simp)
    · rw [h, fetchExternalPhase_attempted] at ha
      exact absurd ha (by simp)
    · rw [h]
  · intro hw
    rw [fetch_elapsed_eq s env hw]
    exact fetchExternalPhase_attempted s env

/-- Witness for C10 at a concrete input: with the window elapsed
(100000 − 0 ≥ 10000) the read attempts the external call. -/
theorem c10_amended_window_witness :
    (fetchFromExternalDatabase { dbConn := true }
        { now := 100000,
          external := some { temperature := 24, ph := 7, tdsLevel := 900 } }
      ).externalAttempted = true :=
  (c10_amended_window { dbConn := true }
      { now := 100000,
        external := some { temperature := 24, ph := 7, tdsLevel := 900 } }).2.2
    (by decide)

/-! ## Claim C5 -/

theorem updateStatusRecount (t : StorageState) (env : UpdEnv)
    (hconn : t.dbConn = true) (hsel : env.selectFails = false)
    (hwr : env.writeFails = false) :
    ∃ row,
      (updateSystemStatus t { dataPoints := some (t.db.readings.length : Int) }
          env).2.db.status.head? = some row ∧
      row.dataPoints =
        ((updateSystemStatus t
            { dataPoints := some (t.db.readings.length : Int) }
            env).2.db.readings.length : Int) := by
  obtain ⟨row, hrow, hdp⟩ :=
    updateSystemStatus_sets_dataPoints t (t.db.readings.length : Int) env
      hconn hsel hwr
  refine ⟨row, hrow, ?_⟩
  rw [hdp, (updateSystemStatus_preserves t _ env).2.2.2.1]

theorem createSensorReading_success_eq (s : StorageState) (ins : InsertReading)
    (env : CreateEnv) (hconn : s.dbConn = true) (hins : env.insertFails = false)
    (hcnt : env.countFails = false) :
    createSensorReading s ins env =
      (({ rid := env.newId, timestamp := env.insTimestamp,
          temperature := ins.temperature, ph := ins.ph,
          tdsLevel := ins.tdsLevel, createdAt := env.insTimestamp } :
            SensorReading),
       (updateSystemStatus
          { s with db := { s.db with readings := s.db.readings ++
              [{ rid := env.newId, timestamp := env.insTimestamp,
                 temperature := ins.temperature, ph := ins.ph,
                 tdsLevel := ins.tdsLevel, createdAt := env.insTimestamp }] } }
          { dataPoints := some
              ((s.db.readings ++
                [({ rid := env.newId, timestamp := env.insTimestamp,
                    temperature := ins.temperature, ph := ins.ph,
                    tdsLevel := ins.tdsLevel,
                    createdAt := env.insTimestamp } :
                      SensorReading)]).length : Int) }
          env.updEnv).2) := by
  unfold createSensorReading
  simp only [hconn, hins, hcnt, not_true, Bool.false_eq_true, if_false]

theorem fetchExternalPhase_success_eq (s : StorageState) (env : FetchEnv)
    (ext : ExtReading) (hx : env.external = some ext) (hconn : s.dbConn = true)
    (hins : env.insertFails = false) (hcnt : env.countFails = false) :
    fetchExternalPhase s env =
      { reading := some
          { rid := env.newId, timestamp := env.insTimestamp,
            temperature := ext.temperature, ph := ext.ph,
            tdsLevel := ext.tdsLevel, createdAt := env.insTimestamp },
        state := (updateSystemStatus
          { s with
            lastExternalFetchTime := env.now,
            db := { s.db with readings := s.db.readings ++
              [{ rid := env.newId, timestamp := env.insTimestamp,
                 temperature := ext.temperature, ph := ext.ph,
                 tdsLevel := ext.tdsLevel, createdAt := env.insTimestamp }] },
            databaseAvailable := true }
          { dataPoints := some
              ((s.db.readings ++
                [({ rid := env.newId, timestamp := env.insTimestamp,
                    temperature := ext.temperature, ph := ext.ph,
                    tdsLevel := ext.tdsLevel,
                    createdAt := env.insTimestamp } :
                      SensorReading)]).length : Int) }
          env.updEnv).2,
        externalAttempted := true } := by
  unfold fetchExternalPhase
  rw [hx]
  simp only [hconn, hins, hcnt, Bool.false_eq_true, if_false, if_true]

/-- C5 (confirmed): after every successful insert of a sensor
reading — whether through `createSensorReading` or through the
fetch-and-persist path — the orchestrator recomputes `dataPoints` with a
full COUNT query over the persisted readings, so the stored `dataPoints`
equals the true persisted row count (old count + 1); it is never
maintained by incrementing a cached counter. -/
theorem c5_recount (s : StorageState) (ins : InsertReading) (env : CreateEnv)
    (fenv : FetchEnv) (ext : ExtReading)
    (hconn : s.dbConn = true)
    (hins : env.insertFails = false) (hcnt : env.countFails = false)
    (hsel : env.updEnv.selectFails = false) (hwr : env.updEnv.writeFails = false)
    (hwin : cacheTimeout ≤ fenv.now - s.lastExternalFetchTime)
    (hx : fenv.external = some ext)
    (hfins : fenv.insertFails = false) (hfcnt : fenv.countFails = false)
    (hfsel : fenv.updEnv.selectFails = false)
    (hfwr : fenv.updEnv.writeFails = false) :
    ((∃ row, (createSensorReading s ins env).2.db.status.head? = some row ∧
        row.dataPoints =
          ((createSensorReading s ins env).2.db.readings.length : Int)) ∧
      (createSensorReading s ins env).2.db.readings.length =
        s.db.readings.length + 1) ∧
    ((∃ row,
        (fetchFromExternalDatabase s fenv).state.db.status.head? = some row ∧
        row.dataPoints =
          ((fetchFromExternalDatabase s fenv).state.db.readings.length : Int)) ∧
      (fetchFromExternalDatabase s fenv).state.db.readings.length =
        s.db.readings.length + 1) := by
  constructor
  · rw [createSensorReading_success_eq s ins env hconn hins hcnt]
    constructor
    · exact updateStatusRecount _ env.updEnv hconn hsel hwr
    · rw [(updateSystemStatus_preserves _ _ env.updEnv).2.2.2.1]
      simp
  · rw [fetch_elapsed_eq s fenv hwin,
      fetchExternalPhase_success_eq s fenv ext hx hconn hfins hfcnt]
    constructor
    · exact updateStatusRecount _ fenv.updEnv hconn hfsel hfwr
    · rw [(updateSystemStatus_preserves _ _ fenv.updEnv).2.2.2.1]
      simp

/-- Witness for C5: a concrete successful insert into a store holding
one row (status singleton present), on both insert paths — afterwards
the stored `dataPoints` equals the new row count 2. -/
theorem c5_recount_witness :
    ((∃ row, (createSensorReading st5 ins0 cenv0).2.db.status.head? =
        some row ∧
        row.dataPoints =
          ((createSensorReading st5 ins0 cenv0).2.db.readings.length : Int)) ∧
      (createSensorReading st5 ins0 cenv0).2.db.readings.length =
        st5.db.readings.length + 1) ∧
    ((∃ row,
        (fetchFromExternalDatabase st5 fenv0).state.db.status.head? =
          some row ∧
        row.dataPoints =
          ((fetchFromExternalDatabase st5 fenv0).state.db.readings.length :
            Int)) ∧
      (fetchFromExternalDatabase st5 fenv0).state.db.readings.length =
        st5.db.readings.length + 1) :=
  c5_recount st5 ins0 cenv0 fenv0 ext0 rfl rfl rfl rfl rfl (by decide) rfl
    rfl rfl rfl rfl

/-! ## Claim C1 -/

/-- C1 counterexample: in the degraded state `st5deg`
(`databaseAvailable = false`, gateway connection up), a fully successful
`createSensorReading` — the insert lands (the store grows to 2 rows and
the returned reading carries the database-generated id) — does NOT
restore the flag to LIVE: `databaseAvailable` stays `false`, contrary to
the claim that every successful persistence operation while degraded
transitions the flag back to LIVE. -/
theorem c1_counterexample :
    st5deg.databaseAvailable = false ∧
    (createSensorReading st5deg ins0 cenv0).1.rid = "r2" ∧
    (createSensorReading st5deg ins0 cenv0).2.db.readings.length = 2 ∧
    (createSensorReading st5deg ins0 cenv0).2.databaseAvailable = false := by
  refine ⟨rfl, rfl, rfl, rfl⟩

/-- C1 (amended): the failure direction of the state machine holds —
every failing persistence operation (reads against the store, inserts,
status/settings queries and updates, the time-range query, the cached
fetch read) flips `databaseAvailable` from LIVE to DEGRADED.  The
recovery direction holds only for a subset of operations: a successful
`getSystemStatus` or `getAlertSettings` read restores LIVE, as does a
successful insert on the fetch-and-persist path; but a successful
`createSensorReading`, `updateSystemStatus` or `updateAlertSettings`
leaves the flag unchanged — in particular a successful insert via
`createSensorReading` while degraded does NOT restore LIVE. -/
theorem c1_amended_flag_machine (s : StorageState) (ins : InsertReading)
    (cenv : CreateEnv) (p : StatusPatch) (uenv : UpdEnv) (arow : AlertRow)
    (fenv : FetchEnv) (now : Int) (a b : Int) (renv : RangeEnv)
    (genv : GetEnv) (limit : Nat) :
    (s.dbConn = true → cenv.insertFails = true →
      (createSensorReading s ins cenv).2.databaseAvailable = false) ∧
    (s.dbConn = true → cenv.insertFails = false → cenv.countFails = true →
      (createSensorReading s ins cenv).2.databaseAvailable = false) ∧
    (s.dbConn = true → cenv.insertFails = false → cenv.countFails = false →
      cenv.updEnv.selectFails = false → cenv.updEnv.writeFails = false →
      (createSensorReading s ins cenv).2.databaseAvailable =
        s.databaseAvailable) ∧
    (s.dbConn = true →
      (getSystemStatus s true now).2.databaseAvailable = false) ∧
    (s.dbConn = true →
      (getSystemStatus s false now).2.databaseAvailable = true) ∧
    (s.dbConn = true →
      (getAlertSettings s true).2.databaseAvailable = false) ∧
    (s.dbConn = true →
      (getAlertSettings s false).2.databaseAvailable = true) ∧
    (s.dbConn = true →
      (uenv.selectFails = true ∨
        (uenv.selectFails = false ∧ uenv.writeFails = true)) →
      (updateSystemStatus s p uenv).2.databaseAvailable = false) ∧
    (uenv.selectFails = false → uenv.writeFails = false →
      (updateSystemStatus s p uenv).2.databaseAvailable =
        s.databaseAvailable) ∧
    (s.dbConn = true →
      (uenv.selectFails = true ∨
        (uenv.selectFails = false ∧ uenv.writeFails = true)) →
      (updateAlertSettings s arow uenv).2.databaseAvailable = false) ∧
    (uenv.selectFails = false → uenv.writeFails = false →
      (updateAlertSettings s arow uenv).2.databaseAvailable =
        s.databaseAvailable) ∧
    (s.dbConn = true → renv.queryFails = true →
      (getSensorReadingsByTimeRange s a b renv).2.databaseAvailable =
        false) ∧
    (s.dbConn = true → fenv.cacheReadFails = true →
      fenv.now - s.lastExternalFetchTime < cacheTimeout →
      fenv.external = none →
      (fetchFromExternalDatabase s fenv).state.databaseAvailable = false) ∧
    (s.dbConn = true → cacheTimeout ≤ fenv.now - s.lastExternalFetchTime →
      (∃ ext, fenv.external = some ext) → fenv.insertFails = true →
      (fetchFromExternalDatabase s fenv).state.databaseAvailable = false) ∧
    (s.dbConn = true → cacheTimeout ≤ fenv.now - s.lastExternalFetchTime →
      (∃ ext, fenv.external = some ext) → fenv.insertFails = false →
      fenv.countFails = false → fenv.updEnv.selectFails = false →
      fenv.updEnv.writeFails = false →
      (fetchFromExternalDatabase s fenv).state.databaseAvailable = true) ∧
    (s.databaseAvailable = true → s.dbConn = true →
      genv.fetch.external = none → genv.fetch.cacheReadFails = false →
      genv.readFails = true →
      (getSensorReadings limit s [genv]).2.databaseAvailable = false) := by
  refine ⟨?_, ?_, ?_, ?_, ?_, ?_, ?_, ?_, ?_, ?_, ?_, ?_, ?_, ?_, ?_, ?_⟩
  · intro hconn hf
    unfold createSensorReading
    simp [hconn, hf]
  · intro hconn hf hc
    unfold createSensorReading
    simp [hconn, hf, hc]
  · intro hconn hf hc hs hw
    rw [createSensorReading_success_eq s ins cenv hconn hf hc]
    exact (updateSystemStatus_preserves _ _ cenv.updEnv).2.2.2.2.2 hs hw
  · intro hconn
    unfold getSystemStatus
    simp [hconn]
  · intro hconn
    unfold getSystemStatus
    simp only [hconn, not_true, Bool.false_eq_true, if_false]
    cases s.db.status.head? <;> rfl
  · intro hconn
    unfold getAlertSettings
    simp [hconn]
  · intro hconn
    unfold getAlertSettings
    simp only [hconn, not_true, Bool.false_eq_true, if_false]
    cases s.db.alerts.head? <;> rfl
  · intro hconn hfail
    unfold updateSystemStatus
    rcases hfail with hs | ⟨hs, hw⟩
    · simp [hconn, hs]
    · simp only [hconn, hs, hw, not_true, Bool.false_eq_true, if_false,
        if_true]
      cases s.db.status.head? <;> rfl
  · intro hs hw
    exact (updateSystemStatus_preserves s p uenv).2.2.2.2.2 hs hw
  · intro hconn hfail
    unfold updateAlertSettings
    rcases hfail with hs | ⟨hs, hw⟩
    · simp [hconn, hs]
    · simp only [hconn, hs, hw, not_true, Bool.false_eq_true, if_false,
        if_true]
      cases s.db.alerts.head? <;> rfl
  · intro hs hw
    unfold updateAlertSettings
    split
    · rfl
    · rename_i hconn
      rw [hs] at *
      simp only [Bool.false_eq_true, if_false]
      cases s.db.alerts.head? with
      | none =>
        rw [hw]
        simp only [Bool.false_eq_true, if_false]
      | some cur =>
        rw [hw]
        simp only [Bool.false_eq_true, if_false]
  · intro hconn hq
    unfold getSensorReadingsByTimeRange
    have hdb : (fetchFromExternalDatabase s renv.fetch).state.dbConn = true := by
      rw [fetch_preserves_dbConn]
      exact hconn
    simp [hdb, hq]
  · intro hconn hcf hfresh hx
    unfold fetchFromExternalDatabase
    rw [if_pos ⟨hconn, hfresh⟩, if_pos hcf]
    simp [fetchExternalPhase, hx]
  · intro hconn hfresh ⟨ext, hx⟩ hf
    rw [fetch_elapsed_eq s fenv hfresh]
    unfold fetchExternalPhase
    rw [hx]
    simp [hconn, hf]
  · intro hconn hfresh ⟨ext, hx⟩ hf hc hs hw
    rw [fetch_elapsed_eq s fenv hfresh,
      fetchExternalPhase_success_eq s fenv ext hx hconn hf hc]
    exact (updateSystemStatus_preserves _ _ fenv.updEnv).2.2.2.2.2 hs hw
  · intro hda hconn hx hcf hrf
    simp only [getSensorReadings]
    rw [fetch_neutral s genv.fetch hx hcf]
    simp [hda, hconn, hrf, getSensorReadings]

/-- Witness for C1 (amended) at a concrete input: a fully successful
`createSensorReading` on the live state `st5` leaves the availability
flag exactly as it was. -/
theorem c1_amended_flag_machine_witness :
    (createSensorReading st5 ins0 cenv0).2.databaseAvailable =
      st5.databaseAvailable :=
  (c1_amended_flag_machine st5 ins0 cenv0 {} {} st5.fallbackAlerts
      { now := 0 } 0 0 0 {} {} 50).2.2.1 rfl rfl rfl rfl rfl

/-! ## Claim C2 -/

theorem getSensorReadings_degraded (limit : Nat) (s : StorageState)
    (genv : GetEnv) (rest : List GetEnv) (hx : genv.fetch.external = none)
    (hda : s.databaseAvailable = false) :
    getSensorReadings limit s (genv :: rest) =
      ((ensureFallbackSample (fetchFromExternalDatabase s genv.fetch).state
          genv.now).fallbackReadings.take limit,
       ensureFallbackSample (fetchFromExternalDatabase s genv.fetch).state
         genv.now) := by
  simp only [getSensorReadings]
  have hfl :
      (fetchFromExternalDatabase s genv.fetch).state.databaseAvailable =
        false := by
    rcases fetch_noExternal_state s genv.fetch hx with h | h
    · rw [h]
      exact hda
    · rw [h]
  simp [hfl]

/-- C2 counterexample: a manual insert fails against the live store
(`cenvFail` — the insert throws), degrading the orchestrator; the
subsequent `getSystemStatus` whose store read also fails returns the
in-memory fallback status object, whose `connectionStatus` is the stored
constant `connected` — not `error` and not `disconnected` as the claim
requires. -/
theorem c2_counterexample :
    (createSensorReading st5 ins0 cenvFail).2.databaseAvailable = false ∧
    (getSystemStatus (createSensorReading st5 ins0 cenvFail).2 true
        2000).1.connectionStatus = .connected ∧
    (getSystemStatus (createSensorReading st5 ins0 cenvFail).2 true
        2000).1.connectionStatus ≠ .error ∧
    (getSystemStatus (createSensorReading st5 ins0 cenvFail).2 true
        2000).1.connectionStatus ≠ .disconnected := by
  refine ⟨rfl, rfl, by decide, by decide⟩

/-- C2 (amended): after a persistence failure the next
`getSensorReadings` call terminates within that single call and serves
the in-memory fallback set (seeding one sample if it is empty),
independent of any further retry environments; a subsequent failing
`getSystemStatus` returns the fallback status object — whose
`connectionStatus` is the hardcoded constant `connected`, not
`error`/`disconnected`; and after the next successful status read the
orchestrator returns the persisted row and restores the availability
flag without manual intervention. -/
theorem c2_amended_degraded_path (s : StorageState) (genv : GetEnv)
    (rest : List GetEnv) (limit : Nat) (now : Int) (row : SystemStatusRow)
    (hda : s.databaseAvailable = false) (hx : genv.fetch.external = none) :
    ((getSensorReadings limit s (genv :: rest)).1 =
      (if s.fallbackReadings.isEmpty then [sampleReadingAt "sample_" genv.now]
       else s.fallbackReadings).take limit) ∧
    ((getSensorReadings limit s (genv :: rest)).2.databaseAvailable =
      false) ∧
    (getSensorReadings limit s (genv :: rest) =
      getSensorReadings limit s [genv]) ∧
    (s.dbConn = true → (getSystemStatus s true now).1 = s.fallbackStatus) ∧
    (({} : StorageState).fallbackStatus.connectionStatus = .connected) ∧
    (s.dbConn = true → s.db.status.head? = some row →
      (getSystemStatus s false now).1 = row ∧
      (getSystemStatus s false now).2.databaseAvailable = true) := by
  have hfb :
      (fetchFromExternalDatabase s genv.fetch).state.fallbackReadings =
        s.fallbackReadings := by
    rcases fetch_noExternal_state s genv.fetch hx with h | h
    · rw [h]
    · rw [h]
  have hfl :
      (fetchFromExternalDatabase s genv.fetch).state.databaseAvailable =
        false := by
    rcases fetch_noExternal_state s genv.fetch hx with h | h
    · rw [h]
      exact hda
    · rw [h]
  refine ⟨?_, ?_, ?_, ?_, rfl, ?_⟩
  · rw [getSensorReadings_degraded limit s genv rest hx hda]
    simp only [ensureFallbackSample, hfb]
    split_ifs <;> simp [hfb]
  · rw [getSensorReadings_degraded limit s genv rest hx hda]
    simp only [ensureFallbackSample]
    split_ifs
    · exact hfl
    · exact hfl
  · rw [getSensorReadings_degraded limit s genv rest hx hda,
      getSensorReadings_degraded limit s genv [] hx hda]
  · intro hconn
    unfold getSystemStatus
    simp [hconn]
  · intro hconn hrow
    unfold getSystemStatus
    simp [hconn, hrow]

/-- Witness for C2 at concrete inputs: the degraded state `st5deg` read
through one attempt serves the fallback list, and the recovery read
returns the persisted status row with the flag restored. -/
theorem c2_amended_degraded_path_witness :
    ((getSensorReadings 50 st5deg [genv0]).1 =
      (if st5deg.fallbackReadings.isEmpty then
        [sampleReadingAt "sample_" genv0.now]
       else st5deg.fallbackReadings).take 50) ∧
    ((getSensorReadings 50 st5deg [genv0]).2.databaseAvailable = false) ∧
    ((getSystemStatus st5deg false 0).1 = statusRow1 ∧
      (getSystemStatus st5deg false 0).2.databaseAvailable = true) :=
  ⟨(c2_amended_degraded_path st5deg genv0 [] 50 0 statusRow1 rfl rfl).1,
   (c2_amended_degraded_path st5deg genv0 [] 50 0 statusRow1 rfl rfl).2.1,
   (c2_amended_degraded_path st5deg genv0 [] 50 0 statusRow1 rfl
      rfl).2.2.2.2.2 rfl rfl⟩

/-! ## Claim C4 -/

/-- C4 (confirmed): when a LIVE read finds zero persisted readings
(and the freshness-triggered fetch found no external data), the policy
splits on the environment: a development-like configuration synthesizes
one seed reading {25.5, 6.8, 450}, persists it (the store afterwards
holds exactly that row) and returns it; a production-like configuration
returns one synthesized in-memory reading and inserts nothing — the
store stays empty and the sample lives only in the fallback list. -/
theorem c4_empty_store_policy (s : StorageState) (genv : GetEnv) (limit : Nat)
    (hda : s.databaseAvailable = true) (hconn : s.dbConn = true)
    (hempty : s.db.readings = [])
    (hx : genv.fetch.external = none) (hcf : genv.fetch.cacheReadFails = false)
    (hrf : genv.readFails = false) (hdf : genv.devInsertFails = false) :
    (s.isDev = true →
      (getSensorReadings limit s [genv]).1 =
        [{ rid := genv.newId, timestamp := genv.insTimestamp,
           temperature := 25.5, ph := 6.8, tdsLevel := 450,
           createdAt := genv.insTimestamp }] ∧
      (getSensorReadings limit s [genv]).2.db.readings =
        [{ rid := genv.newId, timestamp := genv.insTimestamp,
           temperature := 25.5, ph := 6.8, tdsLevel := 450,
           createdAt := genv.insTimestamp }]) ∧
    (s.isDev = false →
      (getSensorReadings limit s [genv]).1 =
        [sampleReadingAt "fallback_" genv.now] ∧
      (getSensorReadings limit s [genv]).2.db.readings = [] ∧
      (getSensorReadings limit s [genv]).2.fallbackReadings =
        [sampleReadingAt "fallback_" genv.now]) := by
  constructor
  · intro hdev
    simp only [getSensorReadings]
    rw [fetch_neutral s genv.fetch hx hcf]
    simp [hda, hconn, hrf, hempty, sortByTsDesc, hdev, hdf]
  · intro hdev
    simp only [getSensorReadings]
    rw [fetch_neutral s genv.fetch hx hcf]
    simp [hda, hconn, hrf, hempty, sortByTsDesc, hdev]

/-- Witness for C4 on the concrete empty stores: in development the seed
row is persisted and returned; in production the sample stays in memory
and the store remains empty. -/
theorem c4_empty_store_policy_witness :
    ((getSensorReadings 50 stEmptyDev [genv0]).1 =
        [{ rid := genv0.newId, timestamp := genv0.insTimestamp,
           temperature := 25.5, ph := 6.8, tdsLevel := 450,
           createdAt := genv0.insTimestamp }] ∧
      (getSensorReadings 50 stEmptyDev [genv0]).2.db.readings =
        [{ rid := genv0.newId, timestamp := genv0.insTimestamp,
           temperature := 25.5, ph := 6.8, tdsLevel := 450,
           createdAt := genv0.insTimestamp }]) ∧
    ((getSensorReadings 50 stEmptyProd [genv0]).1 =
        [sampleReadingAt "fallback_" genv0.now] ∧
      (getSensorReadings 50 stEmptyProd [genv0]).2.db.readings = [] ∧
      (getSensorReadings 50 stEmptyProd [genv0]).2.fallbackReadings =
        [sampleReadingAt "fallback_" genv0.now]) :=
  ⟨(c4_empty_store_policy stEmptyDev genv0 50 rfl rfl rfl rfl rfl rfl rfl).1
      rfl,
   (c4_empty_store_policy stEmptyProd genv0 50 rfl rfl rfl rfl rfl rfl
      rfl).2 rfl⟩

/-! ## Claim C9 -/

/-- C9 (confirmed): in the LIVE state (gateway up, query succeeds,
no fresh external data to insert), `getSensorReadingsByTimeRange`
returns exactly the persisted readings whose timestamp lies in the
closed interval `[startTime, endTime]` — the result is a permutation of
that filter, sorted by ascending timestamp, and membership holds exactly
for in-range stored readings; when `startTime` is after `endTime` the
result is the empty sequence, not an error. -/
theorem c9_time_range (s : StorageState) (a b : Int) (renv : RangeEnv)
    (hconn : s.dbConn = true) (hq : renv.queryFails = false)
    (hx : renv.fetch.external = none)
    (hcf : renv.fetch.cacheReadFails = false) :
    ((getSensorReadingsByTimeRange s a b renv).1.Pairwise tsLE) ∧
    (getSensorReadingsByTimeRange s a b renv).1.Perm
      (s.db.readings.filter (fun r => a ≤ r.timestamp ∧ r.timestamp ≤ b)) ∧
    (∀ r, r ∈ (getSensorReadingsByTimeRange s a b renv).1 ↔
      (r ∈ s.db.readings ∧ a ≤ r.timestamp ∧ r.timestamp ≤ b)) ∧
    (b < a → (getSensorReadingsByTimeRange s a b renv).1 = []) := by
  have key : getSensorReadingsByTimeRange s a b renv =
      (sortByTsAsc (s.db.readings.filter
        (fun r => a ≤ r.timestamp ∧ r.timestamp ≤ b)), s) := by
    unfold getSensorReadingsByTimeRange
    simp [fetch_neutral s renv.fetch hx hcf, hconn, hq]
  rw [key]
  simp only [sortByTsAsc]
  refine ⟨?_, ?_, ?_, ?_⟩
  · exact List.sorted_insertionSort tsLE _
  · exact List.perm_insertionSort tsLE _
  · intro r
    simp [List.mem_insertionSort, List.mem_filter]
  · intro hba
    have hnil : s.db.readings.filter
        (fun r => decide (a ≤ r.timestamp ∧ r.timestamp ≤ b)) = [] := by
      rw [List.filter_eq_nil_iff]
      intro r hr
      simp only [decide_eq_true_eq]
      omega
    rw [hnil]
    rfl

/-- Witness for C9 on the three-reading store `st9`: the range [2, 6] is
returned sorted ascending, and the reversed range [7, 3] is empty. -/
theorem c9_time_range_witness :
    ((getSensorReadingsByTimeRange st9 2 6
        { fetch := { now := 50000 } }).1.Pairwise tsLE) ∧
    ((getSensorReadingsByTimeRange st9 7 3
        { fetch := { now := 50000 } }).1 = []) :=
  ⟨(c9_time_range st9 2 6 { fetch := { now := 50000 } } rfl rfl rfl rfl).1,
   (c9_time_range st9 7 3 { fetch := { now := 50000 } } rfl rfl rfl
      rfl).2.2.2 (by decide)⟩

end DRPTM
